import Mathlib

/-!
Verification of the portfolio backend (`main.py`): a shallow embedding of the
search endpoint, the catalog filter/lookup endpoints, and the contact-form
pipeline (validate → persist → schedule notification → respond), together
with theorems settling the specification's claims about them.

Nondeterministic inputs of the Python code are explicit parameters here:
`uuid.uuid4()` becomes a `newId : String` argument, `datetime.now()` a
`DateTime` argument, file-system faults a `Bool`/`StoreState` argument, and
SMTP outcomes an `SmtpOutcome` record.
-/

namespace Portfolio

/-! ### Strings: Python `str.lower()` and the `in` substring operator.
The catalog data is ASCII, where `Char.toLower` agrees with `str.lower`. -/

/-- Python `s.lower()`: lower-case every character. -/
def lowerStr (s : String) : String := ⟨s.data.map Char.toLower⟩

/-- Python `a in b` on the underlying character lists: `a` occurs as a
contiguous substring of `b` (the empty string occurs in everything). -/
def containsSub : List Char → List Char → Bool
  | needle, [] => needle.isEmpty
  | needle, c :: t => needle.isPrefixOf (c :: t) || containsSub needle t

/-- Python `a in b` on strings. -/
def str_in (a b : String) : Bool := containsSub a.data b.data

/-! ### Wall-clock time: `datetime` values and `isoformat` / `fromisoformat`. -/

/-- A `datetime.datetime` value (naive, microsecond precision). -/
structure DateTime where
  year : Nat
  month : Nat
  day : Nat
  hour : Nat
  minute : Nat
  second : Nat
  micro : Nat
deriving DecidableEq

/-- Field bounds guaranteed by `datetime` (real values are stricter, e.g.
`month ≤ 12`; these bounds are what zero-padded formatting needs). -/
def DateTime.Valid (t : DateTime) : Prop :=
  t.year < 10000 ∧ t.month < 100 ∧ t.day < 100 ∧ t.hour < 100 ∧
    t.minute < 100 ∧ t.second < 100 ∧ t.micro < 1000000

/-- Chronological order, via a positional linearisation of the fields. -/
def DateTime.key (t : DateTime) : Nat :=
  (((((t.year * 13 + t.month) * 32 + t.day) * 25 + t.hour) * 61 + t.minute) * 61
      + t.second) * 1000000 + t.micro

/-- `a` is not later than `b`. -/
def DateTime.le (a b : DateTime) : Prop := a.key ≤ b.key

instance (t : DateTime) : Decidable t.Valid := by
  unfold DateTime.Valid; infer_instance

instance (a b : DateTime) : Decidable (a.le b) := by
  unfold DateTime.le; infer_instance

/-- Zero-padded two-digit decimal rendering (`%02d`). -/
def pad2 (n : Nat) : List Char :=
  [Nat.digitChar (n / 10 % 10), Nat.digitChar (n % 10)]

/-- Zero-padded four-digit decimal rendering (`%04d`). -/
def pad4 (n : Nat) : List Char :=
  [Nat.digitChar (n / 1000 % 10), Nat.digitChar (n / 100 % 10),
   Nat.digitChar (n / 10 % 10), Nat.digitChar (n % 10)]

/-- Zero-padded six-digit decimal rendering (`%06d`). -/
def pad6 (n : Nat) : List Char :=
  [Nat.digitChar (n / 100000 % 10), Nat.digitChar (n / 10000 % 10),
   Nat.digitChar (n / 1000 % 10), Nat.digitChar (n / 100 % 10),
   Nat.digitChar (n / 10 % 10), Nat.digitChar (n % 10)]

/-- `datetime.isoformat()`: `YYYY-MM-DDTHH:MM:SS[.ffffff]`, the fractional
part present exactly when the microsecond field is nonzero. -/
def isoformat (t : DateTime) : String :=
  ⟨pad4 t.year ++ '-' :: (pad2 t.month ++ '-' :: (pad2 t.day ++ 'T' ::
    (pad2 t.hour ++ ':' :: (pad2 t.minute ++ ':' :: (pad2 t.second ++
      (if t.micro = 0 then [] else '.' :: pad6 t.micro))))))⟩

/-- Decimal digit value of a character, if it is a digit. -/
def d2n (c : Char) : Option Nat :=
  if c.isDigit then some (c.toNat - 48) else none

/-- Parse two decimal digits. -/
def parse2 (a b : Char) : Option Nat :=
  match d2n a, d2n b with
  | some x, some y => some (10 * x + y)
  | _, _ => none

/-- Parse four decimal digits. -/
def parse4 (a b c d : Char) : Option Nat :=
  match d2n a, d2n b, d2n c, d2n d with
  | some x, some y, some z, some w => some (1000 * x + 100 * y + 10 * z + w)
  | _, _, _, _ => none

/-- Parse six decimal digits. -/
def parse6 (a b c d e f : Char) : Option Nat :=
  match d2n a, d2n b, d2n c, d2n d, d2n e, d2n f with
  | some u, some v, some w, some x, some y, some z =>
      some (100000 * u + 10000 * v + 1000 * w + 100 * x + 10 * y + z)
  | _, _, _, _, _, _ => none

/-- ISO-8601 parsing on the character list (`datetime.fromisoformat` shape). -/
def parseIsoChars : List Char → Option DateTime
  | y1 :: y2 :: y3 :: y4 :: c1 :: m1 :: m2 :: c2 :: d1 :: d2 :: c3 ::
      h1 :: h2 :: c4 :: n1 :: n2 :: c5 :: s1 :: s2 :: rest =>
    if c1 = '-' ∧ c2 = '-' ∧ c3 = 'T' ∧ c4 = ':' ∧ c5 = ':' then
      match parse4 y1 y2 y3 y4, parse2 m1 m2, parse2 d1 d2,
            parse2 h1 h2, parse2 n1 n2, parse2 s1 s2 with
      | some y, some mo, some d, some h, some n, some s =>
        match rest with
        | [] => some ⟨y, mo, d, h, n, s, 0⟩
        | c6 :: u1 :: u2 :: u3 :: u4 :: u5 :: u6 :: [] =>
          if c6 = '.' then
            match parse6 u1 u2 u3 u4 u5 u6 with
            | some u => some ⟨y, mo, d, h, n, s, u⟩
            | none => none
          else none
        | _ => none
      | _, _, _, _, _, _ => none
    else none
  | _ => none

/-- ISO-8601 parsing on strings. -/
def parseIso (s : String) : Option DateTime := parseIsoChars s.data

/-- A fixed instant used to instantiate clock parameters in concrete tests. -/
def epoch : DateTime := ⟨2024, 1, 1, 0, 0, 0, 0⟩

/-! ### Data model (the Pydantic models used by the claims). -/

/-- `Project` model. -/
structure Project where
  id : String
  title : String
  category : String
  description : String
  tech : List String
  github : String
  demo : String
  featured : Bool
  created_at : DateTime
deriving DecidableEq

/-- `Skill` model. -/
structure Skill where
  name : String
  level : Nat
  category : String
deriving DecidableEq

/-- `Experience` model. -/
structure Experience where
  id : String
  title : String
  company : String
  location : String
  period : String
  description : String
  type : String
  achievements : List String
deriving DecidableEq

/-- Validated `ContactMessage` model (field constraints enforced by
`validate` below). -/
structure ContactMessage where
  name : String
  email : String
  subject : String
  message : String
deriving DecidableEq

/-- `ContactResponse` model. -/
structure ContactResponse where
  success : Bool
  message : String
  id : Option String
deriving DecidableEq

/-! ### Catalog fixtures.  `PROJECTS_DATA` takes the module-load instant
`t0` as a parameter, standing for the `datetime.now()` calls in the
fixture's `created_at` fields. -/

/-- `PROJECTS_DATA` fixture. -/
def PROJECTS_DATA (t0 : DateTime) : List Project :=
  [ { id := "1", title := "Amazon Clone", category := "E-commerce Platform",
      description := "Full-featured e-commerce platform with shopping cart, payment integration, and user authentication. Built with modern JavaScript and responsive design principles.",
      tech := ["JavaScript", "HTML5", "CSS3", "LocalStorage", "Responsive Design"],
      github := "https://github.com/ArunDev-07",
      demo := "https://arun-amazon-clone.netlify.app",
      featured := true, created_at := t0 },
    { id := "2", title := "Movie Discovery App", category := "Entertainment Platform",
      description := "Interactive movie discovery application with TMDB API integration, search functionality, and detailed movie information with trailers.",
      tech := ["React JS", "TMDB API", "Tailwind CSS", "React Router", "Axios"],
      github := "https://github.com/ArunDev-07/Movie-App.git",
      demo := "https://arun-movie-app.netlify.app",
      featured := true, created_at := t0 },
    { id := "3", title := "Weather Forecast App", category := "Weather Service",
      description := "Real-time weather application with location-based forecasting, 5-day predictions, and interactive weather maps.",
      tech := ["React JS", "OpenWeather API", "Geolocation API", "Chart.js"],
      github := "https://github.com/ArunDev-07/Weather-App",
      demo := "https://arun-weather-app.netlify.app",
      featured := false, created_at := t0 },
    { id := "4", title := "Currency Converter", category := "Financial Tool",
      description := "Real-time currency conversion application with historical data, multiple currencies, and exchange rate trends.",
      tech := ["React JS", "Exchange Rate API", "Chart.js", "Material-UI"],
      github := "https://github.com/ArunDev-07/Currency-Converter",
      demo := "https://arun-currency-converter.netlify.app",
      featured := false, created_at := t0 },
    { id := "5", title := "CRUD Task Manager", category := "Data Management",
      description := "Complete task management application with CRUD operations, filtering, sorting, and data persistence.",
      tech := ["React JS", "Context API", "LocalStorage", "React Hooks"],
      github := "https://github.com/ArunDev-07/CRUD-App",
      demo := "https://arun-task-manager.netlify.app",
      featured := false, created_at := t0 } ]

/-- `SKILLS_DATA` fixture. -/
def SKILLS_DATA : List Skill :=
  [ { name := "React JS", level := 90, category := "Frontend" },
    { name := "JavaScript", level := 85, category := "Frontend" },
    { name := "HTML", level := 95, category := "Frontend" },
    { name := "CSS", level := 92, category := "Frontend" },
    { name := "TypeScript", level := 75, category := "Frontend" },
    { name := "Tailwind CSS", level := 88, category := "Frontend" },
    { name := "Python", level := 82, category := "Backend" },
    { name := "FastAPI", level := 78, category := "Backend" },
    { name := "MySQL", level := 80, category := "Database" },
    { name := "Git/GitHub", level := 85, category := "Tools" } ]

/-- `EXPERIENCES_DATA` fixture. -/
def EXPERIENCES_DATA : List Experience :=
  [ { id := "1", title := "Full Stack Developer Intern", company := "VDart",
      location := "Trichy, Tamil Nadu", period := "2024 - Present",
      description := "Working as a Full Stack Developer, building scalable web applications using React.js and modern web technologies. Collaborating with cross-functional teams to deliver high-quality solutions.",
      type := "internship",
      achievements :=
        ["Developed responsive web applications using React JS",
         "Implemented RESTful APIs with Python backend",
         "Collaborated with design team for UI/UX improvements",
         "Participated in code reviews and agile development"] },
    { id := "2", title := "Web Development Intern", company := "Learnflu",
      location := "Online", period := "2024",
      description := "Worked with React JS and API integrations. Assisted in developing cross-platform websites and gained hands-on experience with modern web development practices.",
      type := "internship",
      achievements :=
        ["Built cross-platform websites using React JS",
         "Integrated third-party APIs for enhanced functionality",
         "Optimized website performance and user experience",
         "Collaborated with remote development team"] },
    { id := "3", title := "Generative AI Workshop", company := "Tech Conference",
      location := "Bangalore", period := "2025",
      description := "Participated in intensive workshop on Generative AI, learning to create chatbots using cutting-edge AI technologies and machine learning frameworks.",
      type := "workshop",
      achievements :=
        ["Learned chatbot development using Generative AI",
         "Implemented AI-powered conversation systems",
         "Studied machine learning frameworks",
         "Networked with AI professionals"] } ]

/-- The operator address notified of submissions (`PERSONAL_INFO["email"]`). -/
def personal_email : String := "arunaakash675@gmail.com"

/-! ### Search (`GET /api/search`, `search_content`). -/

/-- A search hit, as assembled by `search_content`. -/
structure SearchResult where
  type : String
  title : String
  description : String
  url : String
deriving DecidableEq

/-- The project match test of `search_content`:
`q.lower() in title.lower() or q.lower() in description.lower() or
any(q.lower() in tech.lower() for tech in project["tech"])`. -/
def matches_project (q : String) (p : Project) : Bool :=
  str_in (lowerStr q) (lowerStr p.title) ||
  str_in (lowerStr q) (lowerStr p.description) ||
  p.tech.any (fun tech => str_in (lowerStr q) (lowerStr tech))

/-- The skill match test of `search_content`: `q.lower() in skill["name"].lower()`. -/
def matches_skill (q : String) (s : Skill) : Bool :=
  str_in (lowerStr q) (lowerStr s.name)

/-- The dict appended for a matching project. -/
def project_result (p : Project) : SearchResult :=
  { type := "project", title := p.title, description := p.description,
    url := "/api/projects/" ++ p.id }

/-- The dict appended for a matching skill. -/
def skill_result (s : Skill) : SearchResult :=
  { type := "skill", title := s.name,
    description := s.category ++ " - " ++ toString s.level ++ "%",
    url := "/api/skills" }

/-- `search_content(q, category)`: two accumulation loops, projects then
skills; the `category` parameter is accepted but never read. -/
def search_content (t0 : DateTime) (q : String) (category : Option String) :
    String × List SearchResult :=
  let results : List SearchResult := []
  let results := (PROJECTS_DATA t0).foldl
    (fun acc p => if matches_project q p then acc ++ [project_result p] else acc) results
  let results := SKILLS_DATA.foldl
    (fun acc s => if matches_skill q s then acc ++ [skill_result s] else acc) results
  (q, results)

/-! ### Read endpoints (filters and id lookups). -/

/-- `get_projects(featured)`: `if featured is not None:` filter by exact
boolean equality. -/
def get_projects (t0 : DateTime) (featured : Option Bool) : List Project :=
  match featured with
  | none => PROJECTS_DATA t0
  | some b => (PROJECTS_DATA t0).filter (fun p => p.featured == b)

/-- `get_skills(category)`: `if category:` — Python truthiness, so both
`None` and the empty string skip the filter. -/
def get_skills (category : Option String) : List Skill :=
  match category with
  | none => SKILLS_DATA
  | some c =>
    if c ≠ "" then SKILLS_DATA.filter (fun s => lowerStr s.category == lowerStr c)
    else SKILLS_DATA

/-- `get_experiences(type)`: `if type:` — same truthiness guard. -/
def get_experiences (ty : Option String) : List Experience :=
  match ty with
  | none => EXPERIENCES_DATA
  | some t =>
    if t ≠ "" then EXPERIENCES_DATA.filter (fun e => lowerStr e.type == lowerStr t)
    else EXPERIENCES_DATA

/-- `get_project(project_id)`: first record with matching id, else a 404
`HTTPException`.  The handler is a pure read: no state is touched. -/
def get_project (t0 : DateTime) (project_id : String) : Except Nat Project :=
  match (PROJECTS_DATA t0).find? (fun p => p.id == project_id) with
  | some p => .ok p
  | none => .error 404

/-- `get_experience(experience_id)`: same shape over `EXPERIENCES_DATA`. -/
def get_experience (experience_id : String) : Except Nat Experience :=
  match EXPERIENCES_DATA.find? (fun e => e.id == experience_id) with
  | some e => .ok e
  | none => .error 404

/-! ### Contact record store (`contact_messages.json`, `save_contact_message`). -/

/-- One persisted record: `{id, name, email, subject, message, timestamp}`. -/
structure StoredMessage where
  id : String
  name : String
  email : String
  subject : String
  message : String
  timestamp : String
deriving DecidableEq

/-- State of the `contact_messages.json` file: absent, present but not a
readable JSON list (so `json.load` or `messages.append` raises), or a
readable list of records. -/
inductive StoreState
  | missing
  | corrupt
  | records (l : List StoredMessage)
deriving DecidableEq

/-- The list a well-formed store holds (`[]` for a missing file). -/
def StoreState.priorList : StoreState → List StoredMessage
  | .missing => []
  | .corrupt => []
  | .records l => l

/-- Reading the store file back as a JSON list, as `json.load` would. -/
def read_store : StoreState → Option (List StoredMessage)
  | .records l => some l
  | _ => none

/-- Number of records the store holds. -/
def record_count (s : StoreState) : Nat := s.priorList.length

/-- The `message_data` dict built by `save_contact_message`; `newId` stands
for `str(uuid.uuid4())` and `now` for `datetime.now()`. -/
def mk_record (newId : String) (now : DateTime) (c : ContactMessage) : StoredMessage :=
  { id := newId, name := c.name, email := c.email, subject := c.subject,
    message := c.message, timestamp := isoformat now }

/-- `save_contact_message(contact_data)`: read the whole file (a corrupt
read raises inside the single `try`, so the function returns `None` with
nothing written), append the new record, write the whole list back.
`fault` stands for an I/O error while writing; the claims never examine the
on-disk bytes after a write fault, so the model keeps the prior state in
that branch.  Returns `(message_data["id"], final store)`. -/
def save_contact_message (store : StoreState) (fault : Bool) (newId : String)
    (now : DateTime) (c : ContactMessage) : Option String × StoreState :=
  match store with
  | .corrupt => (none, .corrupt)
  | .missing =>
    if fault then (none, .missing)
    else (some newId, .records [mk_record newId now c])
  | .records prior =>
    if fault then (none, .records prior)
    else (some newId, .records (prior ++ [mk_record newId now c]))

/-! ### Submission pipeline (`POST /api/contact`, `submit_contact`). -/

/-- A raw request body, before validation. -/
structure RawContact where
  name : String
  email : String
  subject : String
  message : String
deriving DecidableEq

/-- The `ContactMessage` field constraints (`min_length`/`max_length` count
characters; `EmailStr` delegates to the external email-validator library,
abstracted here as the `email_ok` predicate).  FastAPI runs this before the
handler; on failure the request ends with a validation error and the
handler body never executes. -/
def validate (email_ok : String → Bool) (r : RawContact) : Option ContactMessage :=
  if 2 ≤ r.name.length ∧ r.name.length ≤ 100 ∧ email_ok r.email = true ∧
      5 ≤ r.subject.length ∧ r.subject.length ≤ 200 ∧
      10 ≤ r.message.length ∧ r.message.length ≤ 1000
  then some ⟨r.name, r.email, r.subject, r.message⟩ else none

/-- The fixed success message of `submit_contact`. -/
def thank_you_message : String :=
  "Thank you for your message! I\x27ll get back to you soon."

/-- Outcome of `POST /api/contact`: a 422 validation error (no side
effects), or the handler's `ContactResponse`. -/
inductive SubmitOutcome
  | validationError
  | ok (resp : ContactResponse)
deriving DecidableEq

/-- `submit_contact(contact, background_tasks)`: validation failure stops
everything; otherwise save (its `None` result is not an error), register
`send_email` as a background task, and respond with success.  Returns the
outcome, the final store state, and the list of scheduled notification
tasks. -/
def submit_contact (email_ok : String → Bool) (r : RawContact) (store : StoreState)
    (fault : Bool) (newId : String) (now : DateTime) :
    SubmitOutcome × StoreState × List ContactMessage :=
  match validate email_ok r with
  | none => (.validationError, store, [])
  | some c =>
    let res := save_contact_message store fault newId now c
    (.ok { success := true, message := thank_you_message, id := res.1 }, res.2, [c])

/-! ### Notifier (`send_email`). -/

/-- SMTP configuration (`EMAIL_CONFIG`), with the environment-overridable
fields passed as `Option`s. -/
structure SmtpConfig where
  smtp_server : String
  smtp_port : Nat
  email : String
  password : String
deriving DecidableEq

/-- `EMAIL_CONFIG` with its `os.getenv` defaults. -/
def email_config (envUser envPassword : Option String) : SmtpConfig :=
  { smtp_server := "smtp.gmail.com", smtp_port := 587,
    email := envUser.getD "your-email@gmail.com",
    password := envPassword.getD "your-app-password" }

/-- Outcome of each fallible step inside the `try` of `send_email`:
message construction, `SMTP(...)`, `starttls`, `login`, `send_message`. -/
structure SmtpOutcome where
  buildOk : Bool
  connectOk : Bool
  starttlsOk : Bool
  loginOk : Bool
  sendOk : Bool
deriving DecidableEq

/-- The notification subject line. -/
def email_subject (c : ContactMessage) : String :=
  "Portfolio Contact: " ++ c.subject

/-- The notification body (the handler's f-string). -/
def email_body (c : ContactMessage) : String :=
  "\n        New contact form submission:\n        \n        Name: " ++ c.name ++
  "\n        Email: " ++ c.email ++
  "\n        Subject: " ++ c.subject ++
  "\n        \n        Message:\n        " ++ c.message ++
  "\n        \n        ---\n        Sent from Portfolio API\n        "

/-- `send_email(contact_data)`: build the message and walk the SMTP steps;
any exception anywhere in the `try` is caught and turned into `False`, so
the function is total and never propagates a fault. -/
def send_email (cfg : SmtpConfig) (env : SmtpOutcome) (c : ContactMessage) : Bool :=
  let _subject := email_subject c
  let _body := email_body c
  let _to := personal_email
  let _from := cfg.email
  env.buildOk && env.connectOk && env.starttlsOk && env.loginOk && env.sendOk

/-- The whole request: run `submit_contact`, then — strictly after the
response value exists — run each scheduled background task once.  Returns
the response, the final store, and the result of each notification
attempt. -/
def handle_contact (email_ok : String → Bool) (r : RawContact) (store : StoreState)
    (fault : Bool) (newId : String) (now : DateTime) (cfg : SmtpConfig)
    (env : SmtpOutcome) : SubmitOutcome × StoreState × List Bool :=
  let res := submit_contact email_ok r store fault newId now
  (res.1, res.2.1, res.2.2.map (send_email cfg env))

/-! ### The result set the specification describes for search: matching
projects in catalog order, then matching skills in catalog order. -/

/-- Spec-side description of the search results. -/
def spec_search_results (t0 : DateTime) (q : String) : List SearchResult :=
  ((PROJECTS_DATA t0).filter (matches_project q)).map project_result ++
    (SKILLS_DATA.filter (matches_skill q)).map skill_result

/-! ### Helper lemmas. -/

/-- An append-accumulating fold is filter-then-map. -/
theorem foldl_append_if (l : List α) (p : α → Bool) (f : α → β) (acc : List β) :
    l.foldl (fun a x => if p x then a ++ [f x] else a) acc = acc ++ (l.filter p).map f := by
  induction l generalizing acc with
  | nil => simp
  | cons x xs ih => by_cases hx : p x <;> simp [List.filter_cons, hx, ih]

/-- The empty character list occurs in every character list. -/
theorem containsSub_nil (l : List Char) : containsSub [] l = true := by
  cases l <;> simp [containsSub, List.isPrefixOf]

/-- The empty query matches every project. -/
theorem matches_project_empty (p : Project) : matches_project "" p = true := by
  have hd : (lowerStr "").data = [] := rfl
  simp [matches_project, str_in, hd, containsSub_nil]

/-- The empty query matches every skill. -/
theorem matches_skill_empty (s : Skill) : matches_skill "" s = true := by
  have hd : (lowerStr "").data = [] := rfl
  simp [matches_skill, str_in, hd, containsSub_nil]

/-- Parsing a zero-padded digit character recovers the digit. -/
theorem d2n_digitChar {k : Nat} (h : k < 10) : d2n (Nat.digitChar k) = some k := by
  interval_cases k <;> decide

/-- `d2n` inverts `Nat.digitChar` on any residue modulo ten. -/
theorem d2n_mod (n : Nat) : d2n (Nat.digitChar (n % 10)) = some (n % 10) :=
  d2n_digitChar (Nat.mod_lt _ (by omega))

/-- `parse2` inverts the two-digit padding. -/
theorem parse2_pads (n : Nat) (h : n < 100) :
    parse2 (Nat.digitChar (n / 10 % 10)) (Nat.digitChar (n % 10)) = some n := by
  simp [parse2, d2n_mod]; omega

/-- `parse4` inverts the four-digit padding. -/
theorem parse4_pads (n : Nat) (h : n < 10000) :
    parse4 (Nat.digitChar (n / 1000 % 10)) (Nat.digitChar (n / 100 % 10))
      (Nat.digitChar (n / 10 % 10)) (Nat.digitChar (n % 10)) = some n := by
  simp [parse4, d2n_mod]; omega

/-- `parse6` inverts the six-digit padding. -/
theorem parse6_pads (n : Nat) (h : n < 1000000) :
    parse6 (Nat.digitChar (n / 100000 % 10)) (Nat.digitChar (n / 10000 % 10))
      (Nat.digitChar (n / 1000 % 10)) (Nat.digitChar (n / 100 % 10))
      (Nat.digitChar (n / 10 % 10)) (Nat.digitChar (n % 10)) = some n := by
  simp [parse6, d2n_mod]; omega

/-- `fromisoformat` inverts `isoformat` on in-range datetimes. -/
theorem parseIso_isoformat (t : DateTime) (h : t.Valid) :
    parseIso (isoformat t) = some t := by
  obtain ⟨y, mo, d, hh, mi, s, u⟩ := t
  obtain ⟨h1, h2, h3, h4, h5, h6, h7⟩ := h
  by_cases hm : u = 0 <;>
    simp [parseIso, isoformat, parseIsoChars, pad4, pad2, pad6,
      parse4_pads _ h1, parse2_pads _ h2, parse2_pads _ h3, parse2_pads _ h4,
      parse2_pads _ h5, parse2_pads _ h6, parse6_pads _ h7, hm]

/-- Membership in a concrete-list find is enough for a `some` result. -/
theorem find?_id_ok {α : Type} (l : List α) (f : α → String) (x : String)
    (h : ∃ a ∈ l, f a = x) :
    ∃ a, l.find? (fun a => f a == x) = some a ∧ a ∈ l ∧ f a = x := by
  have hs : (l.find? (fun a => f a == x)).isSome := by
    rw [List.find?_isSome]
    obtain ⟨a, ha, hfa⟩ := h
    exact ⟨a, ha, by simp [hfa]⟩
  obtain ⟨a, ha⟩ := Option.isSome_iff_exists.mp hs
  exact ⟨a, ha, List.mem_of_find?_eq_some ha, by simpa using List.find?_some ha⟩

/-- If no element has the id, the find misses. -/
theorem find?_id_none {α : Type} (l : List α) (f : α → String) (x : String)
    (h : ∀ a ∈ l, f a ≠ x) : l.find? (fun a => f a == x) = none := by
  rw [List.find?_eq_none]
  intro a ha
  simpa using h a ha

/-! ### Claims. -/

/-- C10: the search operation ignores its `category` parameter entirely —
for every query and any two category values, `search_content` returns
identical results. -/
theorem search_ignores_category (t0 : DateTime) (q : String) (c1 c2 : Option String) :
    search_content t0 q c1 = search_content t0 q c2 := rfl

/-- C6: for every non-empty query, `search_content` returns exactly the
projects whose title, description or some technology tag contains the query
case-insensitively, followed by the skills whose name contains it — projects
first in catalog order, then skills in catalog order, each tagged with its
type, title, description and navigational URL. -/
theorem search_results_exact (t0 : DateTime) (q : String) (cat : Option String)
    (hq : q ≠ "") : search_content t0 q cat = (q, spec_search_results t0 q) := by
  simp [search_content, spec_search_results, foldl_append_if]

/-- Witness for C6 at the query `react`. -/
theorem search_results_exact_witness :
    search_content epoch "react" none = ("react", spec_search_results epoch "react") :=
  search_results_exact epoch "react" none (by decide)

/-- C1 counterexample: the empty query does not yield an empty result set —
`search_content` with `q = ""` returns a non-empty list (in fact the whole
catalog), contradicting the claimed empty result. -/
theorem empty_query_counterexample : ¬ ((search_content epoch "" none).2 = []) := by
  decide

/-- C1 (amended): an empty or whitespace-only query is accepted and handled
by the ordinary substring matching with no error; in particular the empty
query matches every record, so the result is all projects followed by all
skills, not an empty set. -/
theorem empty_query_returns_catalog (t0 : DateTime) (cat : Option String) :
    search_content t0 "" cat =
      ("", (PROJECTS_DATA t0).map project_result ++ SKILLS_DATA.map skill_result) := by
  have hp : (PROJECTS_DATA t0).filter (matches_project "") = PROJECTS_DATA t0 :=
    List.filter_eq_self.mpr (fun p _ => matches_project_empty p)
  have hs : SKILLS_DATA.filter (matches_skill "") = SKILLS_DATA :=
    List.filter_eq_self.mpr (fun s _ => matches_skill_empty s)
  simp [search_content, foldl_append_if, hp, hs]

/-- C7 counterexample: with the empty string as category, `get_skills` does
not return the records whose category case-insensitively equals the value
(there are none) — Python truthiness skips the filter and the whole
collection comes back. -/
theorem empty_category_counterexample :
    ¬ (get_skills (some "") =
        SKILLS_DATA.filter (fun s => lowerStr s.category == lowerStr "")) := by
  decide

/-- C7 (amended): `get_skills` with a non-empty category and
`get_experiences` with a non-empty type return exactly the records whose
field matches the value case-insensitively; an empty-string criterion is
treated like an absent one (whole collection); `get_projects` with a
featured flag filters by exact boolean equality; with no criterion each
operation returns its whole collection in catalog order. -/
theorem filters_match_spec (t0 : DateTime) (c t : String) (b : Bool)
    (hc : c ≠ "") (ht : t ≠ "") :
    get_projects t0 (some b) = (PROJECTS_DATA t0).filter (fun p => p.featured == b) ∧
    get_projects t0 none = PROJECTS_DATA t0 ∧
    get_skills (some c) = SKILLS_DATA.filter (fun s => lowerStr s.category == lowerStr c) ∧
    get_skills none = SKILLS_DATA ∧
    get_skills (some "") = SKILLS_DATA ∧
    get_experiences (some t) = EXPERIENCES_DATA.filter (fun e => lowerStr e.type == lowerStr t) ∧
    get_experiences none = EXPERIENCES_DATA ∧
    get_experiences (some "") = EXPERIENCES_DATA := by
  refine ⟨rfl, rfl, ?_, rfl, ?_, ?_, rfl, ?_⟩ <;>
    simp [get_skills, get_experiences, hc, ht]

/-- Witness for C7 (amended) at category `Frontend`. -/
theorem filters_match_spec_witness :
    get_skills (some "Frontend") =
      SKILLS_DATA.filter (fun s => lowerStr s.category == lowerStr "Frontend") :=
  (filters_match_spec epoch "Frontend" "internship" true (by decide) (by decide)).2.2.1

/-- C9: id lookup on a catalog collection returns the record with the
matching id when one exists, and fails with 404 otherwise; the handlers are
pure reads, so no state changes. -/
theorem id_lookup (t0 : DateTime) (pid eid : String) :
    ((∃ p ∈ PROJECTS_DATA t0, p.id = pid) →
      ∃ p, get_project t0 pid = .ok p ∧ p ∈ PROJECTS_DATA t0 ∧ p.id = pid) ∧
    ((∀ p ∈ PROJECTS_DATA t0, p.id ≠ pid) → get_project t0 pid = .error 404) ∧
    ((∃ e ∈ EXPERIENCES_DATA, e.id = eid) →
      ∃ e, get_experience eid = .ok e ∧ e ∈ EXPERIENCES_DATA ∧ e.id = eid) ∧
    ((∀ e ∈ EXPERIENCES_DATA, e.id ≠ eid) → get_experience eid = .error 404) := by
  refine ⟨fun hex => ?_, fun hnone => ?_, fun hex => ?_, fun hnone => ?_⟩
  · obtain ⟨p, hf, hm, hid⟩ := find?_id_ok (PROJECTS_DATA t0) Project.id pid hex
    exact ⟨p, by simp [get_project, hf], hm, hid⟩
  · simp [get_project, find?_id_none (PROJECTS_DATA t0) Project.id pid hnone]
  · obtain ⟨e, hf, hm, hid⟩ := find?_id_ok EXPERIENCES_DATA Experience.id eid hex
    exact ⟨e, by simp [get_experience, hf], hm, hid⟩
  · simp [get_experience, find?_id_none EXPERIENCES_DATA Experience.id eid hnone]

/-- Witness for C9: project id 1 exists, experience id zzz does not. -/
theorem id_lookup_witness :
    (∃ p, get_project epoch "1" = .ok p ∧ p ∈ PROJECTS_DATA epoch ∧ p.id = "1") ∧
    get_experience "zzz" = .error 404 :=
  ⟨(id_lookup epoch "1" "zzz").1 (by decide),
   (id_lookup epoch "1" "zzz").2.2.2 (by decide)⟩

/-- C4: a submission violating any one shape constraint fails with a
validation error before any side effect: the pipeline result is the
validation error, the store (hence its record count) is unchanged, and no
notification task runs. -/
theorem validation_stops_pipeline (ev : String → Bool) (r : RawContact)
    (store : StoreState) (fault : Bool) (newId : String) (now : DateTime)
    (cfg : SmtpConfig) (env : SmtpOutcome)
    (hviol : r.name.length < 2 ∨ 100 < r.name.length ∨ ev r.email = false ∨
      r.subject.length < 5 ∨ 200 < r.subject.length ∨
      r.message.length < 10 ∨ 1000 < r.message.length) :
    submit_contact ev r store fault newId now = (.validationError, store, []) ∧
    record_count (submit_contact ev r store fault newId now).2.1 = record_count store ∧
    (handle_contact ev r store fault newId now cfg env).2.2 = [] := by
  have hv : validate ev r = none := by
    rw [validate, if_neg]
    rintro ⟨c1, c2, c3, c4, c5, c6, c7⟩
    rcases hviol with h|h|h|h|h|h|h
    · omega
    · omega
    · rw [h] at c3; exact Bool.noConfusion c3
    · omega
    · omega
    · omega
    · omega
  refine ⟨?_, ?_, ?_⟩ <;> simp [submit_contact, handle_contact, hv]

/-- Witness for C4: a one-character name is rejected with no side effect. -/
theorem validation_stops_pipeline_witness :
    submit_contact (fun _ => true)
        ⟨"A", "a@b.com", "Hello subject", "A long enough message."⟩
        (.records []) false "id-4" epoch = (.validationError, .records [], []) :=
  (validation_stops_pipeline (fun _ => true)
    ⟨"A", "a@b.com", "Hello subject", "A long enough message."⟩
    (.records []) false "id-4" epoch (email_config none none)
    ⟨true, true, true, true, true⟩ (by decide)).1

/-- C3: when persistence fails for any reason (write fault or unreadable
store), `save_contact_message` returns the null sentinel instead of
propagating the fault, and `submit_contact` still responds with a success
acknowledgment whose id field is that null sentinel (and the notification
is still scheduled). -/
theorem persistence_failure_null_id (ev : String → Bool) (r : RawContact)
    (c : ContactMessage) (store : StoreState) (fault : Bool) (newId : String)
    (now : DateTime) (hv : validate ev r = some c)
    (hfail : fault = true ∨ store = StoreState.corrupt) :
    (save_contact_message store fault newId now c).1 = none ∧
    submit_contact ev r store fault newId now =
      (.ok ⟨true, thank_you_message, none⟩,
        (save_contact_message store fault newId now c).2, [c]) := by
  have h1 : (save_contact_message store fault newId now c).1 = none := by
    rcases hfail with h | h
    · subst h; cases store <;> simp [save_contact_message]
    · subst h; simp [save_contact_message]
  exact ⟨h1, by simp [submit_contact, hv, h1]⟩

/-- Witness for C3: a corrupt store still produces a success response with
a null id. -/
theorem persistence_failure_null_id_witness :
    submit_contact (fun s => s == "a@b.co")
        ⟨"Ar", "a@b.co", "Hello subject", "This message is long."⟩
        .corrupt false "id-3" epoch =
      (.ok ⟨true, thank_you_message, none⟩, .corrupt,
        [⟨"Ar", "a@b.co", "Hello subject", "This message is long."⟩]) :=
  (persistence_failure_null_id (fun s => s == "a@b.co")
    ⟨"Ar", "a@b.co", "Hello subject", "This message is long."⟩
    ⟨"Ar", "a@b.co", "Hello subject", "This message is long."⟩
    .corrupt false "id-3" epoch (by decide) (by decide)).2

/-- C2 counterexample: with a corrupt store the append does not return the
generated id — the whole `try` aborts, `None` comes back and nothing is
appended, so the prior list is not treated as empty. -/
theorem corrupt_append_counterexample :
    ¬ ((save_contact_message .corrupt false "id-2" epoch
          ⟨"Arun G", "arun@example.com", "Hello there", "A sufficiently long message."⟩).1 =
        some "id-2") := by
  decide

/-- C2 (amended): only a missing store file is treated as an empty prior
list (the append then succeeds and returns the generated id); an unreadable
or corrupt store makes the whole operation fail soft with the null sentinel
and no append. -/
theorem corrupt_read_fails_soft (fault : Bool) (newId : String) (now : DateTime)
    (c : ContactMessage) :
    save_contact_message .corrupt fault newId now c = (none, .corrupt) ∧
    save_contact_message .missing false newId now c =
      (some newId, .records [mk_record newId now c]) := by
  constructor <;> simp [save_contact_message]

/-- C5 counterexample: from a corrupt prior store, appending returns no
generated id and reading the store back yields no record list at all, so
the claimed round-trip fails for that prior state. -/
theorem roundtrip_counterexample :
    (save_contact_message .corrupt false "id-5" epoch
        ⟨"Arun G", "arun@example.com", "Subject line", "Another long enough message."⟩).1 = none ∧
    read_store (save_contact_message .corrupt false "id-5" epoch
        ⟨"Arun G", "arun@example.com", "Subject line", "Another long enough message."⟩).2 = none := by
  decide

/-- C5 (amended): for every valid submission and every readable prior store
state (missing, or a well-formed record list) with a successful write,
appending and then reading the store yields the prior records unchanged and
in order, followed by a last record whose fields equal the input, whose id
is the freshly generated id returned by the append, and whose timestamp
parses back (ISO-8601) to the capture instant, which is ≥ the pre-submission
time. -/
theorem append_roundtrip (store : StoreState) (c : ContactMessage) (newId : String)
    (now pre : DateTime) (hs : store ≠ StoreState.corrupt) (hv : now.Valid)
    (hle : pre.le now) :
    (save_contact_message store false newId now c).1 = some newId ∧
    read_store (save_contact_message store false newId now c).2 =
      some (store.priorList ++ [mk_record newId now c]) ∧
    ∃ rec, (store.priorList ++ [mk_record newId now c]).getLast? = some rec ∧
      rec.id = newId ∧ rec.name = c.name ∧ rec.email = c.email ∧
      rec.subject = c.subject ∧ rec.message = c.message ∧
      parseIso rec.timestamp = some now ∧ pre.le now ∧
      (store.priorList ++ [mk_record newId now c]).dropLast = store.priorList := by
  refine ⟨?_, ?_, mk_record newId now c, ?_, rfl, rfl, rfl, rfl, rfl,
    parseIso_isoformat now hv, hle, ?_⟩
  · cases store <;> simp [save_contact_message] at hs ⊢
  · cases store <;> simp [save_contact_message, read_store, StoreState.priorList] at hs ⊢
  · exact List.getLast?_concat _
  · exact List.dropLast_concat ..

/-- Witness for C5 (amended) on an empty well-formed store. -/
theorem append_roundtrip_witness :
    (save_contact_message (.records []) false "id-5w" ⟨2026, 10, 12, 3, 4, 5, 6⟩
        ⟨"Arun G", "arun@example.com", "Hi there Arun", "This is a long message."⟩).1 =
      some "id-5w" ∧
    read_store (save_contact_message (.records []) false "id-5w" ⟨2026, 10, 12, 3, 4, 5, 6⟩
        ⟨"Arun G", "arun@example.com", "Hi there Arun", "This is a long message."⟩).2 =
      some ((StoreState.records []).priorList ++
        [mk_record "id-5w" ⟨2026, 10, 12, 3, 4, 5, 6⟩
          ⟨"Arun G", "arun@example.com", "Hi there Arun", "This is a long message."⟩]) :=
  ⟨(append_roundtrip (.records [])
      ⟨"Arun G", "arun@example.com", "Hi there Arun", "This is a long message."⟩
      "id-5w" ⟨2026, 10, 12, 3, 4, 5, 6⟩ epoch (by decide) (by decide) (by decide)).1,
   (append_roundtrip (.records [])
      ⟨"Arun G", "arun@example.com", "Hi there Arun", "This is a long message."⟩
      "id-5w" ⟨2026, 10, 12, 3, 4, 5, 6⟩ epoch (by decide) (by decide) (by decide)).2.1⟩

/-- C8: any notifier failure (message construction, connection, STARTTLS,
authentication or send) is caught and swallowed — `send_email` returns
`false` instead of raising, the notification is attempted at most once,
and the response already produced for the submission is the same whatever
the notifier environment does. -/
theorem notifier_failure_swallowed (cfg : SmtpConfig) (env env2 : SmtpOutcome)
    (c : ContactMessage) (ev : String → Bool) (r : RawContact) (store : StoreState)
    (fault : Bool) (newId : String) (now : DateTime)
    (hfail : env.buildOk = false ∨ env.connectOk = false ∨ env.starttlsOk = false ∨
      env.loginOk = false ∨ env.sendOk = false) :
    send_email cfg env c = false ∧
    (handle_contact ev r store fault newId now cfg env).1 =
      (handle_contact ev r store fault newId now cfg env2).1 ∧
    (handle_contact ev r store fault newId now cfg env).2.2.length ≤ 1 := by
  refine ⟨?_, rfl, ?_⟩
  · rcases hfail with h|h|h|h|h <;> simp [send_email, h]
  · cases hv : validate ev r <;> simp [handle_contact, submit_contact, hv]

/-- Witness for C8: a failed login yields a swallowed `false`. -/
theorem notifier_failure_swallowed_witness :
    send_email (email_config none none) ⟨true, true, true, false, true⟩
      ⟨"Arun G", "arun@example.com", "Hello there", "A sufficiently long message."⟩ = false :=
  (notifier_failure_swallowed (email_config none none) ⟨true, true, true, false, true⟩
    ⟨true, true, true, true, true⟩
    ⟨"Arun G", "arun@example.com", "Hello there", "A sufficiently long message."⟩
    (fun _ => true) ⟨"Arun G", "arun@example.com", "Hello there", "A sufficiently long message."⟩
    .missing false "id-8" epoch (by decide)).1

end Portfolio
